import Mathlib

/-!
Verification development for the vot_toolkit core: a shallow embedding of
src/vot/analysis/document.py and src/vot/__main__.py, together with proofs
about the embedded functions.

The classes Tracker, Experiment, Analysis, Measure and Curve live in modules
of the repository that are not part of the excerpt (vot.tracker,
vot.experiment, vot.analysis); they are modelled from the specification:
a Tracker carries a stable identifier and a display label, an Experiment a
stable identifier, an Analysis a stable name and a description of its
outputs, and a description is a Measure (scalar, with a display
abbreviation) or a Curve.

Python-level failures (TypeError, AttributeError, KeyError, and exceptions
raised by an experiment execution) are modelled with an explicit error type
and the Except monad: embedded functions that can raise return
Except PyError.
-/

/-- A Python-level exception, as observable from the embedded functions. -/
inductive PyError : Type where
  /-- TypeError, e.g. unpacking a non-iterable, list + int, joining a
  path with a tuple component, or a JSON key of unsupported type. -/
  | typeError : PyError
  /-- AttributeError, e.g. calling .split on None. -/
  | attributeError : PyError
  /-- KeyError raised by a dict lookup, carrying the missing key. -/
  | keyError (key : String) : PyError
  /-- An exception raised inside an experiment execution. -/
  | executionError (msg : String) : PyError
deriving DecidableEq, Repr

/-- Modelled from the spec: a Tracker has a stable identity and a display
label, owned by an external registry. -/
structure Tracker where
  identifier : String
  label : String
deriving DecidableEq, Repr

/-- Modelled from the spec: an Experiment has a stable string identity. -/
structure Experiment where
  identifier : String
deriving DecidableEq, Repr

/-- Modelled from the spec: a Measure is a scalar analysis output carrying
a display abbreviation. -/
structure Measure where
  abbreviation : String
deriving DecidableEq, Repr

/-- Modelled from the spec: a Curve is a paired-axis analysis output,
carrying a display abbreviation. -/
structure Curve where
  abbreviation : String
deriving DecidableEq, Repr

/-- Modelled from the spec: one positional output description of an
analysis is either a Measure or a Curve. -/
inductive Desc : Type where
  | measure (m : Measure) : Desc
  | curve (c : Curve) : Desc
deriving DecidableEq, Repr

/-- Modelled from the spec: an Analysis has a stable name, and describe()
returns an ordered sequence of description-or-absent (None) entries, one
per output position. -/
structure Analysis where
  name : String
  describe : List (Option Desc)
deriving DecidableEq, Repr

/-- Modelled from the spec: a dataset Sequence is opaque to the core apart
from its stable name. -/
structure Sequence where
  name : String
deriving DecidableEq, Repr

/-- Per-output scalar values carried through aggregation (opaque to the
core; numbers in practice). -/
abbrev Value := Int

/-- The per-analysis results: a Python dict from tracker to its ordered
per-output values, modelled as an insertion-ordered association list. -/
abbrev AResults := List (Tracker × List Value)

/-- The nested aggregation input of document.py: experiment to analysis to
per-tracker outputs, modelled as insertion-ordered association lists. -/
abbrev Results := List (Experiment × List (Analysis × AResults))

/-! ## merge_repeats (document.py lines 64-83) -/

/-- The loop of merge_repeats (document.py lines 73-81): scans the
remaining objects, counting the current run of the value previous and
flushing (previous, count) to the accumulator when the value changes; the
final run is flushed after the loop (line 81). -/
def merge_repeats_loop {α : Type} [DecidableEq α] :
    List α → α → Nat → List (α × Nat) → List (α × Nat)
  | [], previous, count, repeats => repeats ++ [(previous, count)]
  | o :: rest, previous, count, repeats =>
      if o = previous then
        merge_repeats_loop rest previous (count + 1) repeats
      else
        merge_repeats_loop rest o 1 (repeats ++ [(previous, count)])

/-- merge_repeats (document.py lines 64-83): adjacent-run-length encoding
of an ordered sequence; the empty input returns the empty list (line 67),
otherwise the scan starts at objects[0] with count 1 (lines 70-71). -/
def merge_repeats {α : Type} [DecidableEq α] : List α → List (α × Nat)
  | [] => []
  | x :: rest => merge_repeats_loop rest x 1 []

/-- Expansion of a run-length encoding: each (value, count) pair becomes
count copies of value, concatenated in order. -/
def run_expand {α : Type} : List (α × Nat) → List α
  | [] => []
  | (a, n) :: rest => List.replicate n a ++ run_expand rest

theorem run_expand_append {α : Type} (l₁ l₂ : List (α × Nat)) :
    run_expand (l₁ ++ l₂) = run_expand l₁ ++ run_expand l₂ := by
  induction l₁ with
  | nil => simp [run_expand]
  | cons p rest ih =>
      obtain ⟨a, n⟩ := p
      simp [run_expand, ih, List.append_assoc]

theorem merge_repeats_loop_expand {α : Type} [DecidableEq α]
    (rest : List α) :
    ∀ (previous : α) (count : Nat) (repeats : List (α × Nat)),
      run_expand (merge_repeats_loop rest previous count repeats) =
        run_expand repeats ++ List.replicate count previous ++ rest := by
  induction rest with
  | nil =>
      intro previous count repeats
      simp [merge_repeats_loop, run_expand_append, run_expand]
  | cons o rest ih =>
      intro previous count repeats
      simp only [merge_repeats_loop]
      split
      case isTrue h =>
        subst h
        rw [ih]
        simp [List.replicate_succ', List.append_assoc]
      case isFalse h =>
        rw [ih]
        simp [run_expand_append, run_expand, List.append_assoc]

theorem merge_repeats_loop_chain {α : Type} [DecidableEq α]
    (rest : List α) :
    ∀ (previous : α) (count : Nat) (repeats : List (α × Nat)),
      List.Chain' Ne (repeats.map Prod.fst ++ [previous]) →
      List.Chain' Ne
        ((merge_repeats_loop rest previous count repeats).map Prod.fst) := by
  induction rest with
  | nil =>
      intro previous count repeats h
      simpa [merge_repeats_loop] using h
  | cons o rest ih =>
      intro previous count repeats h
      simp only [merge_repeats_loop]
      split
      case isTrue ho =>
        subst ho
        exact ih o (count + 1) repeats h
      case isFalse ho =>
        apply ih o 1
        have h2 : List.Chain' Ne ((repeats.map Prod.fst ++ [previous]) ++ [o]) := by
          refine List.chain'_append.2 ⟨h, List.chain'_singleton o, ?_⟩
          intro x hx y hy
          rw [List.getLast?_concat] at hx
          simp only [Option.mem_def, Option.some.injEq] at hx
          simp only [List.head?_cons, Option.mem_def, Option.some.injEq] at hy
          subst hx; subst hy
          exact Ne.symm ho
        simpa [List.append_assoc] using h2

/-- C4: for every ordered input, merge_repeats returns run-length pairs
whose expansion reconstructs the input exactly, with no two adjacent pairs
holding equal values; the empty input yields the empty output; and a value
reappearing after a different value starts a new pair, as on [A,A,B,A]
(instantiated with A = 0, B = 1), with no global deduplication. -/
theorem merge_repeats_rle_correct :
    (∀ (α : Type) (inst : DecidableEq α) (l : List α),
        run_expand (@merge_repeats α inst l) = l ∧
        List.Chain' (fun p q : α × Nat => p.1 ≠ q.1) (@merge_repeats α inst l) ∧
        @merge_repeats α inst [] = []) ∧
    merge_repeats [0, 0, 1, 0] = [(0, 2), (1, 1), (0, 1)] := by
  refine ⟨fun α inst l => ⟨?_, ?_, rfl⟩, by decide⟩
  · cases l with
    | nil => rfl
    | cons x rest =>
        show run_expand (merge_repeats_loop rest x 1 []) = x :: rest
        rw [merge_repeats_loop_expand]
        simp [run_expand]
  · cases l with
    | nil => exact List.chain'_nil
    | cons x rest =>
        have h := merge_repeats_loop_chain rest x 1 [] (by simp)
        show List.Chain' (fun p q : α × Nat => p.1 ≠ q.1)
          (merge_repeats_loop rest x 1 [])
        rw [← List.chain'_map (f := (Prod.fst : α × Nat → α))]
        exact h

/-! ## extract_measures_table (document.py lines 13-38)

Line 21 reads `for i, description in descriptions:` — unlike line 32, which
reads `for i, description in enumerate(descriptions)` — so each element of
the describe() sequence is tuple-unpacked into the pair (i, description).
Under the spec contract an element is a description object or None, neither
of which is a 2-element iterable, so in CPython the unpacking raises
TypeError on the first element. Line 29 reads `for tracker, tresult in
aresults:`; iterating a dict yields its keys, so each Tracker key is
tuple-unpacked into (tracker, tresult), which likewise raises TypeError. -/

/-- CPython semantics of the unpacking `i, description = element` at
document.py line 21 (and line 50): a description-or-None element is not a
pair, so the unpacking raises TypeError. -/
def unpack_description (_d : Option Desc) : Except PyError (Nat × Option Desc) :=
  Except.error PyError.typeError

/-- CPython semantics of the unpacking `tracker, tresult = key` implied by
document.py line 29: iterating the per-analysis results dict yields Tracker
keys, and a Tracker is not a pair, so the unpacking raises TypeError. -/
def unpack_tracker (_t : Tracker) : Except PyError (Tracker × List Value) :=
  Except.error PyError.typeError

/-- The three parallel header levels built by extract_measures_table
(table_header, document.py line 14): experiments, analyses, measures. -/
structure MHeader where
  level1 : List Experiment
  level2 : List Analysis
  level3 : List Measure
deriving DecidableEq, Repr

/-- The per-tracker rows built by extract_measures_table (table_data,
document.py line 15), an insertion-ordered dict. -/
abbrev TableData := List (Tracker × List Value)

/-- Python dict membership test (`not tracker in table_data`, line 30). -/
def dict_contains (data : TableData) (t : Tracker) : Bool :=
  data.any (fun p => p.1 = t)

/-- Python dict indexing aresults[tracker] (line 36); a missing key raises
KeyError. -/
def dict_get (aresults : AResults) (t : Tracker) : Except PyError (List Value) :=
  match aresults.find? (fun p => p.1 = t) with
  | some p => Except.ok p.2
  | none => Except.error (PyError.keyError t.identifier)

/-- Python list indexing l[i] (line 36); out of range raises (IndexError,
collapsed into typeError here, unreachable in practice). -/
def pylist_get (l : List Value) (i : Nat) : Except PyError Value :=
  match l.get? i with
  | some v => Except.ok v
  | none => Except.error PyError.typeError

/-- Appending a value to a tracker's row in table_data (line 36), keeping
dict insertion order. -/
def dict_append (data : TableData) (t : Tracker) (v : Value) : TableData :=
  data.map (fun p => if p.1 = t then (p.1, p.2 ++ [v]) else p)

/-- The header loop of extract_measures_table (document.py lines 21-27):
for each description element, unpack it as (i, description) — which raises
TypeError under the describe() contract — then, in the unreachable
continuation, append the experiment, analysis and Measure description to
the three header levels when the description is a Measure. -/
def header_loop (experiment : Experiment) (analysis : Analysis)
    (hdr : MHeader) : Except PyError MHeader :=
  analysis.describe.foldlM
    (fun h d => do
      let (_, description) ← unpack_description d
      match description with
      | some (Desc.measure m) =>
          Except.ok ⟨h.level1 ++ [experiment], h.level2 ++ [analysis],
            h.level3 ++ [m]⟩
      | _ => Except.ok h)
    hdr

/-- The tracker loop of extract_measures_table (document.py lines 29-36):
iterate the per-analysis dict — whose keys fail to tuple-unpack into
(tracker, tresult) — then, in the unreachable continuation, create the
tracker's row if absent and append its value at each Measure position
(line 32 uses enumerate, so this inner loop is position-indexed). -/
def data_loop (analysis : Analysis) (aresults : AResults)
    (data : TableData) : Except PyError TableData :=
  aresults.foldlM
    (fun d p => do
      let (tracker, _) ← unpack_tracker p.1
      let d1 := if dict_contains d tracker then d else d ++ [(tracker, [])]
      analysis.describe.enum.foldlM
        (fun d2 q =>
          match q.2 with
          | some (Desc.measure _) => do
              let row ← dict_get aresults tracker
              let v ← pylist_get row q.1
              Except.ok (dict_append d2 tracker v)
          | _ => Except.ok d2)
        d1)
    data

/-- extract_measures_table (document.py lines 13-38): iterates experiments
and analyses in order, running the header loop (lines 21-27) and then the
tracker loop (lines 29-36) for each analysis, threading the accumulated
(table_header, table_data). -/
def extract_measures_table (results : Results) :
    Except PyError (MHeader × TableData) :=
  results.foldlM
    (fun acc er =>
      er.2.foldlM
        (fun acc2 ar => do
          let hdr ← header_loop er.1 ar.1 acc2.1
          let data ← data_loop ar.1 ar.2 acc2.2
          Except.ok (hdr, data))
        acc)
    (⟨[], [], []⟩, [])

/-! ## extract_plots (document.py lines 40-62) -/

/-- The would-be plot payload: an (x, y) axis pair of Measures. No code
path of the stub ever constructs one. -/
abbrev Plot := Measure × Measure

/-- The description scan of extract_plots (document.py lines 47-56):
collects Measure and Curve descriptions of one analysis into two lists;
line 50 has the same pair-unpacking of each description element as line 21,
raising TypeError on the first element. -/
def plot_scan (descriptions : List (Option Desc)) :
    Except PyError (List Measure × List Curve) :=
  descriptions.foldlM
    (fun acc d => do
      let (_, description) ← unpack_description d
      match description with
      | some (Desc.measure m) => Except.ok (acc.1 ++ [m], acc.2)
      | some (Desc.curve c) => Except.ok (acc.1, acc.2 ++ [c])
      | _ => Except.ok acc)
    ([], [])

/-- extract_plots (document.py lines 40-62): iterates experiments and
analyses, scans each analysis's descriptions, and tests
`if len(measures) == 2: pass` (lines 58-59) — the body is a stub, so the
plots dict created at line 41 is returned unchanged (always empty). -/
def extract_plots (results : Results) : Except PyError (List Plot) := do
  let _ ← results.foldlM
    (fun u er =>
      er.2.foldlM
        (fun _ ar => do
          let (measures, _curves) ← plot_scan ar.1.describe
          let _ := measures.length == 2
          Except.ok ())
        u)
    ()
  Except.ok []

/-! ## Concrete fixtures for claim evaluations -/

/-- A concrete tracker. -/
def sampleTracker : Tracker := ⟨"T1", "Tracker One"⟩

/-- A concrete experiment. -/
def sampleExperiment : Experiment := ⟨"E1"⟩

/-- A concrete analysis declaring one Measure output. -/
def sampleAnalysis : Analysis := ⟨"A1", [some (Desc.measure ⟨"AO"⟩)]⟩

/-- A concrete analysis declaring one Measure output under a second name,
for the plot-extraction claim. -/
def samplePlotAnalysis : Analysis := ⟨"A2", [some (Desc.measure ⟨"PR"⟩)]⟩

/-- C1: evaluating extract_measures_table at a minimal aggregation input —
one experiment, one analysis declaring a single Measure output, one tracker
with one value — does not return the aligned (header, data) table the claim
requires: it raises TypeError, because line 21 unpacks each describe()
element as a pair (i, description) without the enumerate that line 32 uses. -/
theorem extract_measures_table_crashes_on_measure :
    extract_measures_table
        [(sampleExperiment, [(sampleAnalysis, [(sampleTracker, [1])])])] =
      Except.error PyError.typeError := rfl

/-- C8: evaluating extract_plots at an analysis declaring exactly one
Measure (an arity the claim says must simply produce no plot) raises
TypeError instead of returning a plot mapping: line 50 unpacks each
describe() element as a pair (i, description) without enumerate. -/
theorem extract_plots_crashes_on_one_measure :
    extract_plots [(sampleExperiment, [(samplePlotAnalysis, [])])] =
      Except.error PyError.typeError := rfl

/-! ## generate_latex_document (document.py lines 101-128) -/

/-- The table the tabular/report export would render: two merged header
rows of (caption, span) cells, one abbreviation row, and one body row per
tracker of (label, values). -/
structure LatexTable where
  row1 : List (String × Nat)
  row2 : List (String × Nat)
  row3 : List String
  body : List (String × List Value)
deriving DecidableEq, Repr

/-- CPython semantics of `table_header[2] + 1` inside the LongTable column
specification at document.py line 108: adding an int to a list raises
TypeError (the working form would be len(table_header[2]) + 1). -/
def pylist_add_int (_l : List Measure) (_n : Nat) : Except PyError (List Measure) :=
  Except.error PyError.typeError

/-- Modelled from the spec: an Analysis exposes a stable name, not an
identifier attribute, so the access c[0].identifier on merged level-2
header cells (document.py line 112) raises AttributeError. -/
def analysis_identifier_attr (_a : Analysis) : Except PyError String :=
  Except.error PyError.attributeError

/-- generate_latex_document (document.py lines 101-128): extracts the
measures table, then builds a LongTable whose column count expression
`len(table_header[2] + 1)` raises TypeError (line 108) before any row is
added; the row construction that would follow (lines 110-120) is kept for
reference and is unreachable. -/
def generate_latex_document (results : Results) : Except PyError LatexTable := do
  let (table_header, table_data) ← extract_measures_table results
  let cols ← pylist_add_int table_header.level3 1
  let row1 := (merge_repeats table_header.level1).map
    (fun c => (c.1.identifier, c.2))
  let row2 ← (merge_repeats table_header.level2).mapM
    (fun c => do
      let s ← analysis_identifier_attr c.1
      Except.ok (s, c.2))
  let row3 := table_header.level3.map (fun c => c.abbreviation)
  let body := table_data.map (fun p => (p.1.label, p.2))
  let _ := cols.length
  Except.ok ⟨row1, row2, row3, body⟩

/-- C7: even on the empty aggregation input — the only input on which
extract_measures_table itself returns — generate_latex_document raises
TypeError at the column-specification expression `len(table_header[2] + 1)`
(document.py line 108), so no 3-row-header table is ever rendered. -/
theorem generate_latex_document_crashes :
    generate_latex_document [] = Except.error PyError.typeError := rfl

/-! ## generate_json_document (document.py lines 85-98)

json.dump is modelled at the JSON value level: the exported document is a
JSON tree, and re-parsing a dumped document returns that same tree (the
round-trip guarantee of the json module). CPython's encoder serializes
str/int/bool/None and containers itself; dict keys must be str, int, float,
bool or None — the default() hook is applied only to unencodable VALUES,
never to keys — and any other key type raises TypeError. StringifyEncoder's
default() projects an Analysis to its name, a Tracker to its label and an
Experiment to its identifier (lines 88-95). -/

/-- A Python value that can be handed to generate_json_document: JSON
primitives, containers, and the three identity-bearing toolkit objects. -/
inductive PyVal : Type where
  | str (s : String) : PyVal
  | int (n : Int) : PyVal
  | bool (b : Bool) : PyVal
  | pynone : PyVal
  | tracker (t : Tracker) : PyVal
  | experiment (e : Experiment) : PyVal
  | analysis (a : Analysis) : PyVal
  | list (items : List PyVal) : PyVal
  | dict (entries : List (PyVal × PyVal)) : PyVal

/-- A JSON document tree, the (parsed) output of json.dump. -/
inductive Json : Type where
  | str (s : String) : Json
  | int (n : Int) : Json
  | bool (b : Bool) : Json
  | null : Json
  | arr (items : List Json) : Json
  | obj (entries : List (String × Json)) : Json

/-- CPython json key encoding: keys must be str, int, float, bool or None
(ints and the rest are coerced to strings); any other key type raises
TypeError — the encoder's default() hook is never consulted for keys. -/
def encode_json_key : PyVal → Except PyError String
  | PyVal.str s => Except.ok s
  | PyVal.int n => Except.ok (toString n)
  | PyVal.bool b => Except.ok (if b then "true" else "false")
  | PyVal.pynone => Except.ok "null"
  | _ => Except.error PyError.typeError

mutual

/-- json.dump with StringifyEncoder (document.py lines 87-98): primitives
and containers are serialized by the base encoder; a Tracker, Experiment or
Analysis reaching a VALUE position is routed through default(), which
returns its label, identifier or name respectively (a flat string). -/
def stringify_encode : PyVal → Except PyError Json
  | PyVal.str s => Except.ok (Json.str s)
  | PyVal.int n => Except.ok (Json.int n)
  | PyVal.bool b => Except.ok (Json.bool b)
  | PyVal.pynone => Except.ok Json.null
  | PyVal.tracker t => Except.ok (Json.str t.label)
  | PyVal.experiment e => Except.ok (Json.str e.identifier)
  | PyVal.analysis a => Except.ok (Json.str a.name)
  | PyVal.list items => do
      let js ← stringify_encode_list items
      Except.ok (Json.arr js)
  | PyVal.dict entries => do
      let js ← stringify_encode_entries entries
      Except.ok (Json.obj js)

/-- Elementwise serialization of a Python list. -/
def stringify_encode_list : List PyVal → Except PyError (List Json)
  | [] => Except.ok []
  | v :: rest => do
      let j ← stringify_encode v
      let js ← stringify_encode_list rest
      Except.ok (j :: js)

/-- Entrywise serialization of a Python dict, keys first (insertion
order preserved). -/
def stringify_encode_entries :
    List (PyVal × PyVal) → Except PyError (List (String × Json))
  | [] => Except.ok []
  | (k, v) :: rest => do
      let ks ← encode_json_key k
      let j ← stringify_encode v
      let js ← stringify_encode_entries rest
      Except.ok ((ks, j) :: js)

end

/-- C6 counterexample: a result mapping in which a Tracker appears as a
dict KEY — exactly where the nested aggregation mapping places trackers —
is not serialized to its label: json.dump raises TypeError, because the
default() hook is never applied to keys. -/
theorem stringify_encode_rejects_tracker_key :
    stringify_encode (PyVal.dict [(PyVal.tracker sampleTracker, PyVal.int 3)]) =
      Except.error PyError.typeError := by
  simp [stringify_encode, stringify_encode_entries, encode_json_key,
    Bind.bind, Except.bind]

/-- C6 amended: a Tracker, Experiment or Analysis occurring in VALUE
position serializes to its label, identifier or name — a flat string,
never an internal field dump — and such flat values embed unchanged into
an exported document under string keys, so the (re-parsed) document holds
exactly those flat values. -/
theorem stringify_encode_projects_values :
    ∀ (t : Tracker) (e : Experiment) (a : Analysis) (k : String)
      (v : PyVal) (j : Json),
      stringify_encode (PyVal.tracker t) = Except.ok (Json.str t.label) ∧
      stringify_encode (PyVal.experiment e) = Except.ok (Json.str e.identifier) ∧
      stringify_encode (PyVal.analysis a) = Except.ok (Json.str a.name) ∧
      (stringify_encode v = Except.ok j →
        stringify_encode (PyVal.dict [(PyVal.str k, v)]) =
          Except.ok (Json.obj [(k, j)])) := by
  intro t e a k v j
  refine ⟨by simp [stringify_encode], by simp [stringify_encode],
    by simp [stringify_encode], fun h => ?_⟩
  simp [stringify_encode, stringify_encode_entries, encode_json_key, h,
    Bind.bind, Except.bind]

/-- C6 amended, witness: the sample tracker placed under the string key
"score" exports to a document holding its label as a flat string. -/
theorem stringify_encode_projects_values_witness :
    stringify_encode
        (PyVal.dict [(PyVal.str "score", PyVal.tracker sampleTracker)]) =
      Except.ok (Json.obj [("score", Json.str "Tracker One")]) :=
  (stringify_encode_projects_values sampleTracker sampleExperiment
      sampleAnalysis "score" (PyVal.tracker sampleTracker)
      (Json.str "Tracker One")).2.2.2
    (by simp [stringify_encode, sampleTracker])

/-! ## do_evaluate (src/vot/__main__.py lines 80-106)

Workspace loading, the tracker registry, the experiment stack, the dataset
and the experiment execution behaviour are external collaborators; they
enter the embedding as parameters: the registry as an ordered mapping from
identity to Tracker, the stack and dataset as ordered lists, and execute as
a function returning Except (an experiment execution may raise). -/

/-- A (tracker identifier, experiment identifier, sequence name) triple,
recording that the orchestrator reached that unit and called execute. -/
abbrev UnitId := String × String × String

/-- A registry: ordered mapping from identity to Tracker. -/
abbrev Registry := List (String × Tracker)

/-- Python dict lookup registry[name], by identity. -/
def registry_get (registry : Registry) (name : String) : Option Tracker :=
  (registry.find? (fun p => p.1 = name)).map Prod.snd

/-- Python str.strip(): removes leading and trailing whitespace. -/
def py_strip (s : String) : String :=
  String.mk
    (((s.data.dropWhile Char.isWhitespace).reverse.dropWhile
        Char.isWhitespace).reverse)

/-- The character scan behind Python str.split(","): every comma starts a
new field, empty fields included. -/
def py_split_commas_aux : List Char → List Char → List String
  | [], acc => [String.mk acc.reverse]
  | c :: rest, acc =>
      if c = ',' then
        String.mk acc.reverse :: py_split_commas_aux rest []
      else
        py_split_commas_aux rest (c :: acc)

/-- Python str.split(","). -/
def py_split_commas (s : String) : List String :=
  py_split_commas_aux s.data []

/-- The tracker-list comprehension at __main__.py line 93:
[registry[t.strip()] for t in config.trackers.split(",")]; the first
missing identity raises KeyError, carrying the stripped name. -/
def parse_trackers (registry : Registry) (arg : String) :
    Except PyError (List Tracker) :=
  (py_split_commas arg).mapM
    (fun tn =>
      match registry_get registry (py_strip tn) with
      | some t => Except.ok t
      | none => Except.error (PyError.keyError (py_strip tn)))

/-- The innermost loop of do_evaluate (lines 102-104): for each sequence,
call execute; a raised error propagates with the trace of units called so
far (there is no try/except around the call). -/
def run_sequences (t : Tracker) (e : Experiment) (exec : Tracker →
    Experiment → Sequence → Except PyError Unit) :
    List Sequence → List UnitId → Except (PyError × List UnitId) (List UnitId)
  | [], called => Except.ok called
  | s :: rest, called =>
      let called' := called ++ [(t.identifier, e.identifier, s.name)]
      match exec t e s with
      | Except.error err => Except.error (err, called')
      | Except.ok _ => run_sequences t e exec rest called'

/-- The experiment loop of do_evaluate (lines 100-104). -/
def run_experiments (t : Tracker) (dataset : List Sequence) (exec : Tracker →
    Experiment → Sequence → Except PyError Unit) :
    List Experiment → List UnitId → Except (PyError × List UnitId) (List UnitId)
  | [], called => Except.ok called
  | e :: rest, called =>
      match run_sequences t e exec dataset called with
      | Except.error p => Except.error p
      | Except.ok called' => run_experiments t dataset exec rest called'

/-- The tracker loop of do_evaluate (lines 98-104). -/
def run_matrix (stack : List Experiment) (dataset : List Sequence)
    (exec : Tracker → Experiment → Sequence → Except PyError Unit) :
    List Tracker → List UnitId → Except (PyError × List UnitId) (List UnitId)
  | [], called => Except.ok called
  | t :: rest, called =>
      match run_experiments t dataset exec stack called with
      | Except.error p => Except.error p
      | Except.ok called' => run_matrix stack dataset exec rest called'

/-- The observable outcome of do_evaluate. -/
inductive EvalOutcome : Type where
  /-- An exception escaped do_evaluate (uncaught), after the listed units
  had been reached. -/
  | uncaughtError (err : PyError) (called : List UnitId) : EvalOutcome
  /-- The KeyError of a missing tracker was caught at lines 94-96: the
  failure is logged and the function returns. -/
  | trackerNotFound (missing : String) : EvalOutcome
  /-- All loops finished; every unit in the list was executed, in order. -/
  | completed (called : List UnitId) : EvalOutcome
deriving DecidableEq, Repr

/-- do_evaluate (__main__.py lines 80-106): with no trackers argument,
config.trackers is None and None.split(",") raises AttributeError, which
the except clause (KeyError only) does not catch; a missing tracker
identity is caught and logged; the triple loop then runs every
(tracker, experiment, sequence) unit in order with no per-unit handler. -/
def do_evaluate (registry : Registry) (trackers_arg : Option String)
    (stack : List Experiment) (dataset : List Sequence)
    (exec : Tracker → Experiment → Sequence → Except PyError Unit) :
    EvalOutcome :=
  match trackers_arg with
  | none => EvalOutcome.uncaughtError PyError.attributeError []
  | some arg =>
      match parse_trackers registry arg with
      | Except.error (PyError.keyError k) => EvalOutcome.trackerNotFound k
      | Except.error err => EvalOutcome.uncaughtError err []
      | Except.ok trackers =>
          match run_matrix stack dataset exec trackers [] with
          | Except.error (err, called) => EvalOutcome.uncaughtError err called
          | Except.ok called => EvalOutcome.completed called

theorem run_sequences_err (t : Tracker) (e : Experiment)
    (exec : Tracker → Experiment → Sequence → Except PyError Unit) :
    ∀ (ds : List Sequence),
      (∃ s ∈ ds, ∃ err, exec t e s = Except.error err) →
      ∀ called, ∃ p, run_sequences t e exec ds called = Except.error p := by
  intro ds
  induction ds with
  | nil => intro h; simp at h
  | cons s rest ih =>
      intro h called
      obtain ⟨s', hs', err, herr⟩ := h
      cases hexec : exec t e s with
      | error err2 =>
          exact ⟨(err2, called ++ [(t.identifier, e.identifier, s.name)]),
            by simp [run_sequences, hexec]⟩
      | ok u =>
          have hmem : s' ∈ rest := by
            rcases List.mem_cons.1 hs' with h1 | h1
            · subst h1; rw [hexec] at herr; exact Except.noConfusion herr
            · exact h1
          obtain ⟨p, hp⟩ := ih ⟨s', hmem, err, herr⟩
            (called ++ [(t.identifier, e.identifier, s.name)])
          exact ⟨p, by simp [run_sequences, hexec, hp]⟩

theorem run_experiments_err (t : Tracker) (dataset : List Sequence)
    (exec : Tracker → Experiment → Sequence → Except PyError Unit) :
    ∀ (stack : List Experiment),
      (∃ e ∈ stack, ∃ s ∈ dataset, ∃ err, exec t e s = Except.error err) →
      ∀ called, ∃ p, run_experiments t dataset exec stack called =
        Except.error p := by
  intro stack
  induction stack with
  | nil => intro h; simp at h
  | cons e rest ih =>
      intro h called
      obtain ⟨e', he', hfail⟩ := h
      cases hrun : run_sequences t e exec dataset called with
      | error p => exact ⟨p, by simp [run_experiments, hrun]⟩
      | ok called' =>
          have hmem : e' ∈ rest := by
            rcases List.mem_cons.1 he' with h1 | h1
            · subst h1
              obtain ⟨p, hp⟩ := run_sequences_err t e' exec dataset hfail called
              rw [hrun] at hp
              exact Except.noConfusion hp
            · exact h1
          obtain ⟨p, hp⟩ := ih ⟨e', hmem, hfail⟩ called'
          exact ⟨p, by simp [run_experiments, hrun, hp]⟩

theorem run_matrix_err (stack : List Experiment) (dataset : List Sequence)
    (exec : Tracker → Experiment → Sequence → Except PyError Unit) :
    ∀ (trackers : List Tracker),
      (∃ t ∈ trackers, ∃ e ∈ stack, ∃ s ∈ dataset, ∃ err,
        exec t e s = Except.error err) →
      ∀ called, ∃ p, run_matrix stack dataset exec trackers called =
        Except.error p := by
  intro trackers
  induction trackers with
  | nil => intro h; simp at h
  | cons t rest ih =>
      intro h called
      obtain ⟨t', ht', hfail⟩ := h
      cases hrun : run_experiments t dataset exec stack called with
      | error p => exact ⟨p, by simp [run_matrix, hrun]⟩
      | ok called' =>
          have hmem : t' ∈ rest := by
            rcases List.mem_cons.1 ht' with h1 | h1
            · subst h1
              obtain ⟨p, hp⟩ := run_experiments_err t' dataset exec stack hfail called
              rw [hrun] at hp
              exact Except.noConfusion hp
            · exact h1
          obtain ⟨p, hp⟩ := ih ⟨t', hmem, hfail⟩ called'
          exact ⟨p, by simp [run_matrix, hrun, hp]⟩

/-- Concrete sequences for the evaluation claims. -/
def sampleSeq1 : Sequence := ⟨"S1"⟩

/-- A second concrete sequence. -/
def sampleSeq2 : Sequence := ⟨"S2"⟩

/-- An experiment execution behaviour that always raises. -/
def failing_exec : Tracker → Experiment → Sequence → Except PyError Unit :=
  fun _ _ _ => Except.error (PyError.executionError "tracker crashed")

/-- C2 counterexample: with one tracker, one experiment and two sequences,
an execute call that raises on the first sequence escapes do_evaluate
uncaught: the outcome is not a completed matrix, and the second sequence
(and hence the rest of the matrix) is never reached — the trace of units
called stops at (T1, E1, S1). -/
theorem do_evaluate_counterexample :
    do_evaluate [("T1", sampleTracker)] (some "T1") [sampleExperiment]
        [sampleSeq1, sampleSeq2] failing_exec =
      EvalOutcome.uncaughtError (PyError.executionError "tracker crashed")
        [("T1", "E1", "S1")] := rfl

/-- C2 amended: if any (tracker, experiment, sequence) unit's execute call
raises, the exception propagates out of do_evaluate uncaught (there is no
per-unit handler in the loop at lines 98-104): the run reports an uncaught
error instead of completing the matrix. -/
theorem do_evaluate_aborts_on_unit_failure :
    ∀ (registry : Registry) (arg : String) (stack : List Experiment)
      (dataset : List Sequence)
      (exec : Tracker → Experiment → Sequence → Except PyError Unit)
      (trackers : List Tracker),
      parse_trackers registry arg = Except.ok trackers →
      (∃ t ∈ trackers, ∃ e ∈ stack, ∃ s ∈ dataset, ∃ err,
        exec t e s = Except.error err) →
      ∃ err called,
        do_evaluate registry (some arg) stack dataset exec =
          EvalOutcome.uncaughtError err called := by
  intro registry arg stack dataset exec trackers hparse hfail
  obtain ⟨p, hp⟩ := run_matrix_err stack dataset exec trackers hfail []
  refine ⟨p.1, p.2, ?_⟩
  simp [do_evaluate, hparse, hp]

/-- C2 amended, witness: the amended theorem applied at the concrete
one-tracker, one-experiment, two-sequence input with an always-raising
execute. -/
theorem do_evaluate_aborts_on_unit_failure_witness :
    ∃ err called,
      do_evaluate [("T1", sampleTracker)] (some "T1") [sampleExperiment]
          [sampleSeq1, sampleSeq2] failing_exec =
        EvalOutcome.uncaughtError err called :=
  do_evaluate_aborts_on_unit_failure [("T1", sampleTracker)] "T1"
    [sampleExperiment] [sampleSeq1, sampleSeq2] failing_exec [sampleTracker]
    rfl
    ⟨sampleTracker, by simp, sampleExperiment, by simp, sampleSeq1, by simp,
      PyError.executionError "tracker crashed", rfl⟩

/-- C10: invoking the evaluate command with no trackers argument (its None
default) makes do_evaluate raise: None.split(",") is an AttributeError
that the KeyError handler does not catch, so for every registry, stack,
dataset and execute behaviour the outcome is an uncaught AttributeError
before any unit runs — not the logged tracker-not-found report and not a
completed evaluation over zero trackers. -/
theorem do_evaluate_none_trackers_raises :
    ∀ (registry : Registry) (stack : List Experiment)
      (dataset : List Sequence)
      (exec : Tracker → Experiment → Sequence → Except PyError Unit),
      do_evaluate registry none stack dataset exec =
        EvalOutcome.uncaughtError PyError.attributeError [] ∧
      (∀ missing, do_evaluate registry none stack dataset exec ≠
        EvalOutcome.trackerNotFound missing) ∧
      (∀ called, do_evaluate registry none stack dataset exec ≠
        EvalOutcome.completed called) :=
  fun _ _ _ _ =>
    ⟨rfl, fun _ h => EvalOutcome.noConfusion h,
      fun _ h => EvalOutcome.noConfusion h⟩

/-! ## do_pack (src/vot/__main__.py lines 112-161)

The workspace stack, dataset and each experiment's scan behaviour are
external collaborators passed as parameters. scan returns, for one
(tracker, experiment, sequence) unit, its completeness flag and the listed
result files. The scanning loop (lines 138-146) has no break: every unit
of the experiment × sequence matrix is scanned, each incomplete unit is
logged (line 145) and only the flag can_finish is set; after the full scan
the function aborts (lines 148-150) before any archive is created. -/

/-- One collected result file tagged with its experiment identity and
sequence name (the 4-tuple of line 143; the fourth component, the results
bundle handle used only by the copy loop, is an external reference). -/
structure CollectedFile where
  file : String
  experiment : String
  sequence : String
deriving DecidableEq, Repr

/-- The files accumulated by the scanning loop (lines 138-143), in
experiment-major, sequence-minor scan order. -/
def pack_all_files (t : Tracker) (stack : List Experiment)
    (dataset : List Sequence)
    (scan : Tracker → Experiment → Sequence → Bool × List String) :
    List CollectedFile :=
  stack.flatMap
    (fun e => dataset.flatMap
      (fun s => ((scan t e s).2).map (fun f => ⟨f, e.identifier, s.name⟩)))

/-- The (experiment identity, sequence name) units reported incomplete by
the scanning loop (the logger.error line 145, fired once per incomplete
unit, in scan order); can_finish is false exactly when this is nonempty. -/
def pack_incomplete_units (t : Tracker) (stack : List Experiment)
    (dataset : List Sequence)
    (scan : Tracker → Experiment → Sequence → Bool × List String) :
    List (String × String) :=
  stack.flatMap
    (fun e => dataset.filterMap
      (fun s =>
        if (scan t e s).1 then none else some (e.identifier, s.name)))

/-- The observable outcome of do_pack. -/
inductive PackOutcome : Type where
  /-- The KeyError of a missing tracker was caught at lines 129-131: the
  failure is logged and the function returns; no archive is made. -/
  | trackerNotFound (missing : String) : PackOutcome
  /-- Incomplete results: every incomplete (experiment, sequence) unit was
  logged during the full scan, then the function aborted at lines 148-150
  before creating any archive. -/
  | incompleteResultsError (units : List (String × String)) : PackOutcome
  /-- An exception escaped do_pack. -/
  | pyError (err : PyError) : PackOutcome
  /-- An archive with the given name and (internal path, file) entries was
  written. -/
  | packed (archive : String) (entries : List (String × String)) : PackOutcome
deriving DecidableEq, Repr

/-- CPython semantics of os.path.join(f[1], f[2], f) at line 158: the
third argument is the whole collected 4-tuple f rather than the file
identifier f[0], and os.path.join raises TypeError on a tuple component.
(The intended internal path was experiment/sequence/file-identifier.) -/
def py_join_with_tuple (_f : CollectedFile) : Except PyError String :=
  Except.error PyError.typeError

/-- The archive copy loop (lines 156-159): for each collected file, build
its internal path and copy the byte stream into the archive. The very
first file raises TypeError in py_join_with_tuple, so no entry is ever
written. -/
def pack_archive_loop :
    List CollectedFile → List (String × String) →
      Except PyError (List (String × String))
  | [], entries => Except.ok entries
  | f :: rest, entries => do
      let path ← py_join_with_tuple f
      pack_archive_loop rest (entries ++ [(path, f.file)])

/-- do_pack (__main__.py lines 112-161): look up the tracker (KeyError
caught and logged), scan the full experiment × sequence matrix, abort with
the incompleteness report if any unit was incomplete, otherwise create the
archive named tracker-identity_timestamp and run the copy loop. -/
def do_pack (registry : Registry) (tracker_name : String)
    (stack : List Experiment) (dataset : List Sequence)
    (scan : Tracker → Experiment → Sequence → Bool × List String)
    (now : String) : PackOutcome :=
  match registry_get registry tracker_name with
  | none => PackOutcome.trackerNotFound tracker_name
  | some t =>
      let incomplete := pack_incomplete_units t stack dataset scan
      if incomplete.isEmpty then
        let archive_name := t.identifier ++ "_" ++ now
        match pack_archive_loop (pack_all_files t stack dataset scan) [] with
        | Except.error err => PackOutcome.pyError err
        | Except.ok entries => PackOutcome.packed archive_name entries
      else PackOutcome.incompleteResultsError incomplete

/-- Whether a do_pack outcome wrote an archive. -/
def produces_archive : PackOutcome → Bool
  | PackOutcome.packed _ _ => true
  | _ => false

theorem pack_incomplete_units_mem (t : Tracker) (stack : List Experiment)
    (dataset : List Sequence)
    (scan : Tracker → Experiment → Sequence → Bool × List String)
    (e : Experiment) (s : Sequence) (he : e ∈ stack) (hs : s ∈ dataset)
    (hscan : (scan t e s).1 = false) :
    (e.identifier, s.name) ∈ pack_incomplete_units t stack dataset scan := by
  unfold pack_incomplete_units
  refine List.mem_flatMap.2 ⟨e, he, List.mem_filterMap.2 ⟨s, hs, ?_⟩⟩
  simp [hscan]

theorem do_pack_incomplete_outcome (registry : Registry) (name : String)
    (stack : List Experiment) (dataset : List Sequence)
    (scan : Tracker → Experiment → Sequence → Bool × List String)
    (now : String) (t : Tracker)
    (hget : registry_get registry name = some t)
    (hex : ∃ e ∈ stack, ∃ s ∈ dataset, (scan t e s).1 = false) :
    do_pack registry name stack dataset scan now =
      PackOutcome.incompleteResultsError
        (pack_incomplete_units t stack dataset scan) := by
  obtain ⟨e, he, s, hs, hscan⟩ := hex
  have hmem := pack_incomplete_units_mem t stack dataset scan e s he hs hscan
  have hne : pack_incomplete_units t stack dataset scan ≠ [] :=
    List.ne_nil_of_mem hmem
  have hempty : (pack_incomplete_units t stack dataset scan).isEmpty = false := by
    simp [List.isEmpty_iff]
    exact hne
  unfold do_pack
  rw [hget]
  simp [hempty]

/-- C3: whenever some (experiment, sequence) unit's scan reports
complete = false, do_pack fails with the incomplete-results outcome and
writes no archive, and — because the scanning loop has no early exit —
the report covers every incomplete unit of the whole matrix, not just the
first. -/
theorem do_pack_incomplete_gate :
    ∀ (registry : Registry) (name : String) (stack : List Experiment)
      (dataset : List Sequence)
      (scan : Tracker → Experiment → Sequence → Bool × List String)
      (now : String) (t : Tracker),
      registry_get registry name = some t →
      (∃ e ∈ stack, ∃ s ∈ dataset, (scan t e s).1 = false) →
      do_pack registry name stack dataset scan now =
        PackOutcome.incompleteResultsError
          (pack_incomplete_units t stack dataset scan) ∧
      produces_archive (do_pack registry name stack dataset scan now) = false ∧
      (∀ e ∈ stack, ∀ s ∈ dataset, (scan t e s).1 = false →
        (e.identifier, s.name) ∈ pack_incomplete_units t stack dataset scan) := by
  intro registry name stack dataset scan now t hget hex
  have houtcome := do_pack_incomplete_outcome registry name stack dataset
    scan now t hget hex
  refine ⟨houtcome, ?_, ?_⟩
  · rw [houtcome]; rfl
  · intro e he s hs hscan
    exact pack_incomplete_units_mem t stack dataset scan e s he hs hscan

/-- A scan behaviour reporting every unit incomplete with no files. -/
def incomplete_scan : Tracker → Experiment → Sequence → Bool × List String :=
  fun _ _ _ => (false, [])

/-- C3 witness: the incompleteness gate applied at a concrete workspace of
one experiment and two sequences whose scans all report incomplete; both
units appear in the report and no archive is produced. -/
theorem do_pack_incomplete_gate_witness :
    do_pack [("T1", sampleTracker)] "T1" [sampleExperiment]
        [sampleSeq1, sampleSeq2] incomplete_scan "ts" =
      PackOutcome.incompleteResultsError
        (pack_incomplete_units sampleTracker [sampleExperiment]
          [sampleSeq1, sampleSeq2] incomplete_scan) ∧
    produces_archive
        (do_pack [("T1", sampleTracker)] "T1" [sampleExperiment]
          [sampleSeq1, sampleSeq2] incomplete_scan "ts") = false ∧
    (∀ e ∈ [sampleExperiment], ∀ s ∈ [sampleSeq1, sampleSeq2],
      (incomplete_scan sampleTracker e s).1 = false →
      (e.identifier, s.name) ∈ pack_incomplete_units sampleTracker
        [sampleExperiment] [sampleSeq1, sampleSeq2] incomplete_scan) :=
  do_pack_incomplete_gate [("T1", sampleTracker)] "T1" [sampleExperiment]
    [sampleSeq1, sampleSeq2] incomplete_scan "ts" sampleTracker rfl
    ⟨sampleExperiment, by simp, sampleSeq1, by simp, rfl⟩

/-- A scan behaviour reporting every unit complete with one result file. -/
def complete_scan : Tracker → Experiment → Sequence → Bool × List String :=
  fun _ _ _ => (true, ["output.txt"])

/-- C5: packaging a fully complete workspace holding one collected result
file does not store the file under experiment-identity/sequence-name/
file-identifier: the copy loop raises TypeError, because line 158 passes
the whole collected 4-tuple f to os.path.join instead of the file
identifier f[0]; no entry is ever copied into the archive. -/
theorem do_pack_copy_loop_crashes :
    do_pack [("T1", sampleTracker)] "T1" [sampleExperiment] [sampleSeq1]
        complete_scan "2020-01-01T00.00.00.000000" =
      PackOutcome.pyError PyError.typeError := rfl

/-! ## main (src/vot/__main__.py lines 164-220)

Argument parsing is an external collaborator; a ParsedCommand is an
invocation whose arguments parsed successfully, carrying the external
collaborators its handler needs. The try block around the dispatch catches
only argparse.ArgumentError; every returning handler falls through to
exit(0) (line 220), while an exception escaping a handler propagates to
the interpreter, which terminates the process with status 1. -/

/-- A successfully parsed invocation of the command-line entry point. The
analysis command's handler is a bare pass, and a missing or unknown
subcommand prints the help text and returns. -/
inductive ParsedCommand : Type where
  | evaluate (registry : Registry) (trackers_arg : Option String)
      (stack : List Experiment) (dataset : List Sequence)
      (exec : Tracker → Experiment → Sequence → Except PyError Unit) :
      ParsedCommand
  | pack (registry : Registry) (tracker_name : String)
      (stack : List Experiment) (dataset : List Sequence)
      (scan : Tracker → Experiment → Sequence → Bool × List String)
      (now : String) : ParsedCommand
  | analysisCmd : ParsedCommand
  | helpCmd : ParsedCommand

/-- Whether an evaluate outcome is an exception escaping do_evaluate. -/
def eval_raises : EvalOutcome → Bool
  | EvalOutcome.uncaughtError _ _ => true
  | _ => false

/-- Whether a pack outcome is an exception escaping do_pack. -/
def pack_raises : PackOutcome → Bool
  | PackOutcome.pyError _ => true
  | _ => false

/-- Whether an exception escapes the dispatched handler (lines 203-214). -/
def command_raises : ParsedCommand → Bool
  | ParsedCommand.evaluate registry arg stack dataset exec =>
      eval_raises (do_evaluate registry arg stack dataset exec)
  | ParsedCommand.pack registry name stack dataset scan now =>
      pack_raises (do_pack registry name stack dataset scan now)
  | ParsedCommand.analysisCmd => false
  | ParsedCommand.helpCmd => false

/-- The process exit status of main (lines 196-220) for a successfully
parsed invocation: handlers that return reach exit(0); an exception
escaping a handler is not caught (the except clause covers only
argparse.ArgumentError) and the interpreter exits with status 1. -/
def main_exit_code (c : ParsedCommand) : Nat :=
  if command_raises c then 1 else 0

/-- An execute behaviour that always succeeds. -/
def noop_exec : Tracker → Experiment → Sequence → Except PyError Unit :=
  fun _ _ _ => Except.ok ()

/-- C9 counterexample: the evaluate command with no trackers argument
parses successfully, yet its handler raises AttributeError and the process
exits with status 1, not 0. -/
theorem main_exit_code_counterexample :
    main_exit_code (ParsedCommand.evaluate [] none [] [] noop_exec) ≠ 0 := by
  decide

/-- C9 amended: every successfully parsed invocation whose handler returns
(rather than raising) exits with status 0 — including runs where the
command fails gracefully, such as evaluate with an unknown tracker or pack
with incomplete results — but an invocation whose handler raises exits
with status 1. -/
theorem main_exit_code_amended :
    (∀ c : ParsedCommand, command_raises c = false → main_exit_code c = 0) ∧
    (∀ c : ParsedCommand, command_raises c = true → main_exit_code c = 1) ∧
    (∀ (registry : Registry) (arg : String) (stack : List Experiment)
        (dataset : List Sequence)
        (exec : Tracker → Experiment → Sequence → Except PyError Unit)
        (k : String),
      parse_trackers registry arg = Except.error (PyError.keyError k) →
      main_exit_code
        (ParsedCommand.evaluate registry (some arg) stack dataset exec) = 0) ∧
    (∀ (registry : Registry) (name : String) (stack : List Experiment)
        (dataset : List Sequence)
        (scan : Tracker → Experiment → Sequence → Bool × List String)
        (now : String) (t : Tracker),
      registry_get registry name = some t →
      (∃ e ∈ stack, ∃ s ∈ dataset, (scan t e s).1 = false) →
      main_exit_code
        (ParsedCommand.pack registry name stack dataset scan now) = 0) := by
  refine ⟨?_, ?_, ?_, ?_⟩
  · intro c h; simp [main_exit_code, h]
  · intro c h; simp [main_exit_code, h]
  · intro registry arg stack dataset exec k hparse
    simp [main_exit_code, command_raises, do_evaluate, hparse, eval_raises]
  · intro registry name stack dataset scan now t hget hex
    have houtcome := do_pack_incomplete_outcome registry name stack dataset
      scan now t hget hex
    simp [main_exit_code, command_raises, houtcome, pack_raises]

/-- C9 amended, witness: evaluate with a tracker identity missing from an
empty registry is a failing command, and the process still exits 0. -/
theorem main_exit_code_amended_witness :
    main_exit_code (ParsedCommand.evaluate [] (some "T1") [] [] noop_exec) = 0 :=
  main_exit_code_amended.2.2.1 [] "T1" [] [] noop_exec "T1" rfl
